import Mathlib

/-!
Verification of the InvenTree part-pricing view and the
`fix_purchase_price` stock migration, as excerpted in
`src/InvenTree/part/views.py` and
`src/InvenTree/stock/migrations/0094_auto_20230220_0025.py`.

Python `Decimal` values are modelled as rationals (`ℚ`); Python's
`round(d, 3)` on a `Decimal` quantizes with ROUND_HALF_EVEN, modelled by
`round3` below.  (Python `Decimal` division rounds to 28 significant
digits; it is modelled as exact rational division, which agrees on all
the concrete values considered here.)  Part model methods
(`get_supplier_price_range`, `get_bom_price_range`, `get_internal_price`,
`get_price`) are not part of the excerpt; they appear as abstract
function-valued fields of `PartData`, so every theorem about
`get_pricing` quantifies over their behaviour.

The pricing context dictionary built by `get_pricing` is modelled as a
record `Ctx`; an `Option ℚ` field of value `none` means that the
corresponding dictionary key is absent.  The view writes the keys in four
disjoint groups (supplier buy prices, BOM prices, BOM purchase prices,
internal/part prices), which appear here as the sub-records `BuyFacets`,
`RangeFacets` (used twice) and `PriceFacets` (used twice); flat accessors
named after the dictionary keys are provided on `Ctx`.
-/

namespace InvenTree

/-- Round a rational to the nearest integer, ties to even
(the ROUND_HALF_EVEN rule used by Python's `round` on `Decimal`). -/
def roundHalfEven (x : ℚ) : ℤ :=
  let f := ⌊x⌋
  if x - f < 1 / 2 then f
  else if (1 : ℚ) / 2 < x - f then f + 1
  else if f % 2 = 0 then f else f + 1

/-- Python `round(x, 3)` on a `Decimal`: quantize to 3 decimal places,
ties to even. -/
def round3 (x : ℚ) : ℚ := (roundHalfEven (x * 1000) : ℚ) / 1000

/-- Python truthiness of a `Decimal`: falsy exactly when zero. -/
def truthy (x : ℚ) : Bool := x ≠ 0

/-- The data `PartPricing.get_pricing` reads from a `Part` instance.
The part model methods are not in the excerpt, so they are abstract
functions of the quantity (and, for `get_bom_price_range`, of the
`internal` and `purchase` keyword flags, in that order). -/
structure PartData where
  supplier_count : Nat
  bom_count : Nat
  get_supplier_price_range : ℚ → Option (ℚ × ℚ)
  get_bom_price_range : ℚ → Bool → Bool → Option (ℚ × ℚ)
  get_internal_price : ℚ → Option ℚ
  get_price : ℚ → Option ℚ

/-- The four supplier buy-price keys of the context
(views.py lines 132-154). -/
structure BuyFacets where
  min_total_buy_price : Option ℚ
  min_unit_buy_price : Option ℚ
  max_total_buy_price : Option ℚ
  max_unit_buy_price : Option ℚ

def BuyFacets.empty : BuyFacets := ⟨none, none, none, none⟩

/-- The four keys of a (min, max) total/unit group, used for the BOM
price keys and again for the BOM purchase-price keys. -/
structure RangeFacets where
  min_total : Option ℚ
  min_unit : Option ℚ
  max_total : Option ℚ
  max_unit : Option ℚ

def RangeFacets.empty : RangeFacets := ⟨none, none, none, none⟩

/-- A total/unit pair of keys, used for the internal-price keys and for
the part-price keys. -/
structure PriceFacets where
  total : Option ℚ
  unit : Option ℚ

def PriceFacets.empty : PriceFacets := ⟨none, none⟩

/-- Supplier-pricing block of `get_pricing` (views.py lines 134-154):
the unit prices are computed from the totals BEFORE rounding, then the
totals are rounded in place; a (min or max) pair of keys is written only
when the rounded total is truthy. -/
def buyFacets (quantity scaler : ℚ) (range : Option (ℚ × ℚ)) : BuyFacets :=
  match range with
  | none => BuyFacets.empty
  | some (mn, mx) =>
    let min_buy_price := mn / scaler
    let max_buy_price := mx / scaler
    let min_unit_buy_price := round3 (min_buy_price / quantity)
    let max_unit_buy_price := round3 (max_buy_price / quantity)
    let min_buy_price := round3 min_buy_price
    let max_buy_price := round3 max_buy_price
    { min_total_buy_price :=
        if truthy min_buy_price then some min_buy_price else none,
      min_unit_buy_price :=
        if truthy min_buy_price then some min_unit_buy_price else none,
      max_total_buy_price :=
        if truthy max_buy_price then some max_buy_price else none,
      max_unit_buy_price :=
        if truthy max_buy_price then some max_unit_buy_price else none }

/-- BOM-pricing block of `get_pricing`, used for the `bom_price` result
(views.py lines 164-176) and again for the `purchase_price` result
(views.py lines 178-197).  Note the truthiness checks are on the values
BEFORE rounding, unlike the supplier block. -/
def rangeFacets (quantity scaler : ℚ) (range : Option (ℚ × ℚ)) : RangeFacets :=
  match range with
  | none => RangeFacets.empty
  | some (mn, mx) =>
    let min_bom_price := mn / scaler
    let max_bom_price := mx / scaler
    { min_total :=
        if truthy min_bom_price then some (round3 min_bom_price) else none,
      min_unit :=
        if truthy min_bom_price then some (round3 (min_bom_price / quantity))
        else none,
      max_total :=
        if truthy max_bom_price then some (round3 max_bom_price) else none,
      max_unit :=
        if truthy max_bom_price then some (round3 (max_bom_price / quantity))
        else none }

/-- Internal-price / part-price block of `get_pricing`
(views.py lines 199-209).  No truthiness check: a present value is
reported even when zero. -/
def priceFacets (quantity : ℚ) (price : Option ℚ) : PriceFacets :=
  match price with
  | none => PriceFacets.empty
  | some p => { total := some (round3 p), unit := some (round3 (p / quantity)) }

/-- The pricing context mapping built by `PartPricing.get_pricing`. -/
structure Ctx where
  part : Option PartData
  quantity : ℚ
  currency : Option Unit
  buy : BuyFacets
  bom : RangeFacets
  bom_purchase : RangeFacets
  internal : PriceFacets
  price : PriceFacets

/-- The initial context
`{'part': part, 'quantity': quantity, 'currency': currency}`
(`currency` is forced to `None` by the view): no facet key present. -/
def Ctx.base (part : Option PartData) (quantity : ℚ) : Ctx :=
  { part := part, quantity := quantity, currency := none,
    buy := BuyFacets.empty, bom := RangeFacets.empty,
    bom_purchase := RangeFacets.empty,
    internal := PriceFacets.empty, price := PriceFacets.empty }

def Ctx.min_total_buy_price (c : Ctx) : Option ℚ := c.buy.min_total_buy_price
def Ctx.min_unit_buy_price (c : Ctx) : Option ℚ := c.buy.min_unit_buy_price
def Ctx.max_total_buy_price (c : Ctx) : Option ℚ := c.buy.max_total_buy_price
def Ctx.max_unit_buy_price (c : Ctx) : Option ℚ := c.buy.max_unit_buy_price
def Ctx.min_total_bom_price (c : Ctx) : Option ℚ := c.bom.min_total
def Ctx.min_unit_bom_price (c : Ctx) : Option ℚ := c.bom.min_unit
def Ctx.max_total_bom_price (c : Ctx) : Option ℚ := c.bom.max_total
def Ctx.max_unit_bom_price (c : Ctx) : Option ℚ := c.bom.max_unit
def Ctx.min_total_bom_purchase_price (c : Ctx) : Option ℚ :=
  c.bom_purchase.min_total
def Ctx.min_unit_bom_purchase_price (c : Ctx) : Option ℚ :=
  c.bom_purchase.min_unit
def Ctx.max_total_bom_purchase_price (c : Ctx) : Option ℚ :=
  c.bom_purchase.max_total
def Ctx.max_unit_bom_purchase_price (c : Ctx) : Option ℚ :=
  c.bom_purchase.max_unit
def Ctx.total_internal_part_price (c : Ctx) : Option ℚ := c.internal.total
def Ctx.unit_internal_part_price (c : Ctx) : Option ℚ := c.internal.unit
def Ctx.total_part_price (c : Ctx) : Option ℚ := c.price.total
def Ctx.unit_part_price (c : Ctx) : Option ℚ := c.price.unit

/-- `True` when no pricing facet key is present in the context. -/
def Ctx.noFacets (c : Ctx) : Prop :=
  c.buy = BuyFacets.empty ∧ c.bom = RangeFacets.empty ∧
  c.bom_purchase = RangeFacets.empty ∧
  c.internal = PriceFacets.empty ∧ c.price = PriceFacets.empty

/-- The database of parts, keyed by id, read by `PartPricing.get_part`. -/
abbrev Db := List (Nat × PartData)

/-- `PartPricing.get_part`: `Part.objects.get(id=pk)`, returning `None`
(rather than raising) when no part with that id exists. -/
def get_part (db : Db) (pk : Nat) : Option PartData :=
  db.lookup pk

/-- `PartPricing.get_pricing(quantity, currency)` (views.py lines 114-211).
`use_internal` is the `PART_BOM_USE_INTERNAL_PRICE` global setting read
inside the BOM block.  The `currency` argument is discarded by the view
(`currency = None` unconditionally), so it is not a parameter here. -/
def get_pricing (db : Db) (pk : Nat) (quantityIn : ℚ) (use_internal : Bool) :
    Ctx :=
  let quantity := if quantityIn ≤ 0 then 1 else quantityIn
  let scaler : ℚ := 1
  match get_part db pk with
  | none => Ctx.base none quantity
  | some part =>
    { part := some part, quantity := quantity, currency := none,
      buy :=
        if part.supplier_count > 0 then
          buyFacets quantity scaler (part.get_supplier_price_range quantity)
        else BuyFacets.empty,
      bom :=
        if part.bom_count > 0 then
          rangeFacets quantity scaler
            (part.get_bom_price_range quantity use_internal false)
        else RangeFacets.empty,
      bom_purchase :=
        if part.bom_count > 0 then
          rangeFacets quantity scaler
            (part.get_bom_price_range quantity false true)
        else RangeFacets.empty,
      internal := priceFacets quantity (part.get_internal_price quantity),
      price := priceFacets quantity (part.get_price quantity) }

/-- Integer value of a list of decimal digit characters. -/
def digitsVal (cs : List Char) : Nat :=
  cs.foldl (fun a c => a * 10 + (c.toNat - 48)) 0

/-- Strip leading and trailing whitespace (Python's `Decimal(str)`
accepts surrounding whitespace). -/
def trimWs (cs : List Char) : List Char :=
  ((cs.dropWhile Char.isWhitespace).reverse.dropWhile Char.isWhitespace).reverse

/-- The finite-number grammar accepted by Python's `Decimal(str)`
constructor: optional surrounding whitespace, an optional sign, a digit
string with an optional fractional part (at least one digit in total),
and an optional exponent part.  Returns
(negative?, integer digits value, fraction digits value, number of
fraction digits, exponent), or `none` on a malformed string.  The
special values (`Infinity`, `NaN`, `sNaN`), which have no rational
counterpart, are outside this model; on every other input
`Decimal(str)` raises `decimal.InvalidOperation` exactly when this
function returns `none`. -/
def pyDecimalScan (s : String) : Option (Bool × Nat × Nat × Nat × ℤ) :=
  let cs := trimWs s.toList
  let neg : Bool × List Char :=
    match cs with
    | '+' :: rest => (false, rest)
    | '-' :: rest => (true, rest)
    | _ => (false, cs)
  let mant := neg.2.takeWhile (fun c => c != 'e' && c != 'E')
  let rest := neg.2.drop mant.length
  let intPart := mant.takeWhile (fun c => c != '.')
  let fracPart : Option (List Char) :=
    match mant.drop intPart.length with
    | [] => some []
    | _ :: fr => some fr
  let expPart : Option ℤ :=
    match rest with
    | [] => some 0
    | _ :: es =>
      let esgn : ℤ × List Char :=
        match es with
        | '+' :: r => (1, r)
        | '-' :: r => (-1, r)
        | _ => (1, es)
      if esgn.2 ≠ [] ∧ esgn.2.all Char.isDigit then
        some (esgn.1 * digitsVal esgn.2)
      else none
  match fracPart, expPart with
  | some fr, some e =>
    if (intPart ≠ [] ∨ fr ≠ []) ∧ intPart.all Char.isDigit ∧
        fr.all Char.isDigit then
      some (neg.1, digitsVal intPart, digitsVal fr, fr.length, e)
    else none
  | _, _ => none

/-- The rational value of a scanned decimal literal. -/
def pyDecimalVal (r : Bool × Nat × Nat × Nat × ℤ) : ℚ :=
  (if r.1 then (-1 : ℚ) else 1) *
    ((r.2.1 : ℚ) + (r.2.2.1 : ℚ) / (10 : ℚ) ^ r.2.2.2.1) *
    (10 : ℚ) ^ r.2.2.2.2

/-- `Decimal(s)` for a string argument: the parsed rational value, or
`none` when the constructor raises `decimal.InvalidOperation`. -/
def pyDecimalParse (s : String) : Option ℚ :=
  (pyDecimalScan s).map pyDecimalVal

/-- `PartPricing.get_quantity`:
`Decimal(self.request.POST.get('quantity', 1))`.  The argument is the
posted `quantity` parameter, or `none` when the parameter is absent
(in which case the integer default `1` is passed to `Decimal`).  An
unparsable string makes the `Decimal` constructor raise
`decimal.InvalidOperation`, modelled as `Except.error ()`; there is no
surrounding `try`/`except` in the view. -/
def get_quantity (posted : Option String) : Except Unit ℚ :=
  match posted with
  | none => Except.ok 1
  | some s =>
    match pyDecimalParse s with
    | some q => Except.ok q
    | none => Except.error ()

/-- Modelled from the spec: `Part.get_bom_price_range` is not part of
the excerpt (only its caller in views.py is).  Spec section 4.2: one BOM
line references a child part and a quantity multiplier; the child's
resolved unit cost is a (min, max) pair, or absent when the child has no
resolvable price. -/
structure BomLine where
  child_price_range : Option (ℚ × ℚ)
  line_quantity : ℚ

/-- Modelled from the spec: `Part.get_bom_price_range` (spec section
4.2).  Computes a (min, max) total cost by summing, over each BOM line,
the child part's resolved unit cost multiplied by the line's required
quantity multiplied by the requested build quantity; a line whose child
has no resolvable price contributes zero. -/
def bomPriceRange (lines : List BomLine) (q : ℚ) : ℚ × ℚ :=
  ((lines.map fun l =>
      (match l.child_price_range with
       | some pr => pr.1
       | none => 0) * l.line_quantity * q).sum,
   (lines.map fun l =>
      (match l.child_price_range with
       | some pr => pr.2
       | none => 0) * l.line_quantity * q).sum)

/-! ### The `fix_purchase_price` data migration
(`src/InvenTree/stock/migrations/0094_auto_20230220_0025.py`) -/

/-- A `SupplierPart` row: its identity (Django compares model instances
by primary key) and its `pack_size`. -/
structure SupplierPart where
  pk : Nat
  pack_size : ℚ
deriving DecidableEq

/-- A `PurchaseOrderLineItem` row, keeping the fields the migration
reads: the supplier part the line refers to and its purchase price. -/
structure POLine where
  part : Option SupplierPart
  purchase_price : Option ℚ
deriving DecidableEq

/-- A `StockItem` row, keeping the fields the migration reads: the
lines of the linked purchase order (or `none` when no purchase order is
linked), the linked supplier part, and the purchase price. -/
structure StockItem where
  purchase_order : Option (List POLine)
  supplier_part : Option SupplierPart
  purchase_price : Option ℚ
deriving DecidableEq

/-- The inner loop of `fix_purchase_price` (migration lines 51-63) for a
single stock item already known to pass the queryset filters: iterate
over the purchase order's lines in order; whenever a line's part equals
the item's supplier part and the item's CURRENT purchase price equals
the line's purchase price, divide the item's purchase price by the
supplier part's pack size (the running value is compared against each
subsequent line). -/
def fixItemPrice (sp : SupplierPart) (lines : List POLine) (price : ℚ) : ℚ :=
  lines.foldl
    (fun p line =>
      if line.part = some sp ∧ line.purchase_price = some p then
        p / sp.pack_size
      else p)
    price

/-- `fix_purchase_price` (migration lines 34-63), restricted to one
stock item.  The queryset excludes items with no purchase order, no
supplier part, a null purchase price, or `pack_size = 1` (the
`FieldError` fallback does not fire: the field exists in this schema);
excluded items are returned unchanged. -/
def fix_purchase_price (item : StockItem) : StockItem :=
  match item.purchase_order, item.supplier_part, item.purchase_price with
  | some lines, some sp, some price =>
    if sp.pack_size = 1 then item
    else { item with purchase_price := some (fixItemPrice sp lines price) }
  | _, _, _ => item

/-! ### State-threaded form of `get_pricing`

`get_pricing` only ever reads: the part record (via `get_part`), the
`PART_BOM_USE_INTERNAL_PRICE` setting, and the part's pricing methods.
`get_pricing_run` makes this explicit by threading the mutable state (the
part database and the settings store) through each primitive operation
the view performs, so that "no side effects" and "idempotent" become
provable statements. -/

/-- `Part.objects.get(id=pk)` wrapped `try`/`except`: a read of the part
database. -/
def dbGetPart (db : Db) (pk : Nat) : Option PartData × Db := (db.lookup pk, db)

/-- `InvenTreeSetting.get_setting('PART_BOM_USE_INTERNAL_PRICE', False)`:
a read of the settings store. -/
def settingGet (st : Bool) : Bool × Bool := (st, st)

/-- `get_pricing` with the state it touches threaded explicitly; returns
the built context together with the final state. -/
def get_pricing_run (db : Db) (st : Bool) (pk : Nat) (quantityIn : ℚ) :
    Ctx × Db × Bool :=
  let quantity := if quantityIn ≤ 0 then 1 else quantityIn
  let scaler : ℚ := 1
  match dbGetPart db pk with
  | (none, db1) => (Ctx.base none quantity, db1, st)
  | (some part, db1) =>
    let r := settingGet st
    ({ part := some part, quantity := quantity, currency := none,
       buy :=
         if part.supplier_count > 0 then
           buyFacets quantity scaler (part.get_supplier_price_range quantity)
         else BuyFacets.empty,
       bom :=
         if part.bom_count > 0 then
           rangeFacets quantity scaler
             (part.get_bom_price_range quantity r.1 false)
         else RangeFacets.empty,
       bom_purchase :=
         if part.bom_count > 0 then
           rangeFacets quantity scaler
             (part.get_bom_price_range quantity false true)
         else RangeFacets.empty,
       internal := priceFacets quantity (part.get_internal_price quantity),
       price := priceFacets quantity (part.get_price quantity) },
     db1, r.2)

/-- The effective quantity used by `get_pricing`: non-positive
quantities are clamped to 1 (views.py lines 116-117). -/
def effQ (q : ℚ) : ℚ := if q ≤ 0 then 1 else q

/-- Relation between a total key and a unit key of the context at
effective quantity `e`: either both keys are absent, or there is a raw
(pre-rounding) total `r` with the total key holding `r` rounded to 3
decimals and the unit key holding `r / e` rounded to 3 decimals. -/
def facetPair (t u : Option ℚ) (e : ℚ) : Prop :=
  (t = none ∧ u = none) ∨
  ∃ r, t = some (round3 r) ∧ u = some (round3 (r / e))

/-! ### Concrete example data -/

/-- A part with one supplier whose total buy price at any quantity is
10024/10000 = 1.0024, no BOM, and no internal or list price. -/
def partBuyCe : PartData :=
  { supplier_count := 1, bom_count := 0,
    get_supplier_price_range := fun _ => some (10024 / 10000, 10024 / 10000),
    get_bom_price_range := fun _ _ _ => none,
    get_internal_price := fun _ => none, get_price := fun _ => none }

def dbBuyCe : Db := [(1, partBuyCe)]

/-- A part with one BOM line whose total BOM price at any quantity is
4/10000 = 0.0004 (nonzero, but rounding to 0.000), and nothing else. -/
def partBomCe : PartData :=
  { supplier_count := 0, bom_count := 1,
    get_supplier_price_range := fun _ => none,
    get_bom_price_range := fun _ _ pur =>
      if pur then none else some (4 / 10000, 4 / 10000),
    get_internal_price := fun _ => none, get_price := fun _ => none }

def dbBomCe : Db := [(2, partBomCe)]

/-- The two BOM lines of the spec's worked example: child A with unit
price 2.00 at line quantity 3, child B with unit price 5.00 at line
quantity 1. -/
def linesC6 : List BomLine :=
  [{ child_price_range := some (2, 2), line_quantity := 3 },
   { child_price_range := some (5, 5), line_quantity := 1 }]

/-- A part whose two BOM lines are `linesC6` and whose
`get_bom_price_range` behaves as the spec-modelled aggregator on them
(returning no purchase-only range). -/
def partC6 : PartData :=
  { supplier_count := 0, bom_count := 2,
    get_supplier_price_range := fun _ => none,
    get_bom_price_range := fun q _ pur =>
      if pur then none else some (bomPriceRange linesC6 q),
    get_internal_price := fun _ => none, get_price := fun _ => none }

def dbC6 : Db := [(1, partC6)]

/-- A part with no suppliers, no BOM lines, and no internal or list
price. -/
def partEmpty : PartData :=
  { supplier_count := 0, bom_count := 0,
    get_supplier_price_range := fun _ => none,
    get_bom_price_range := fun _ _ _ => none,
    get_internal_price := fun _ => none, get_price := fun _ => none }

def dbEmptyPart : Db := [(3, partEmpty)]

/-- A supplier part with pack size 5. -/
def spC7 : SupplierPart := { pk := 7, pack_size := 5 }

/-- A stock item whose purchase order has TWO lines for its supplier
part, priced 10.00 and 2.00, with the item's stored price 10.00. -/
def itemC7 : StockItem :=
  { purchase_order := some
      [{ part := some spC7, purchase_price := some 10 },
       { part := some spC7, purchase_price := some 2 }],
    supplier_part := some spC7, purchase_price := some 10 }

/-- A stock item whose purchase order has exactly one line for its
supplier part, priced 10.00, with the item's stored price 10.00. -/
def itemC7w : StockItem :=
  { purchase_order := some [{ part := some spC7, purchase_price := some 10 }],
    supplier_part := some spC7, purchase_price := some 10 }

/-- A stock item with no linked purchase order. -/
def itemNoPO : StockItem :=
  { purchase_order := none, supplier_part := none, purchase_price := none }

def sAbc : String := "abc"

def sNum : String := "1.5"

/-! ### Helper lemmas -/

/-- Evaluation rule for `roundHalfEven` once the floor `n` of `x` is
known. -/
theorem roundHalfEven_eval (x : ℚ) (n : ℤ) (hle : (n : ℚ) ≤ x)
    (hlt : x < (n : ℚ) + 1) :
    roundHalfEven x =
      if x - (n : ℚ) < 1 / 2 then n
      else if (1 : ℚ) / 2 < x - (n : ℚ) then n + 1
      else if n % 2 = 0 then n else n + 1 := by
  have hf : ⌊x⌋ = n := Int.floor_eq_iff.mpr ⟨hle, hlt⟩
  simp only [roundHalfEven, hf]

/-- Evaluation rule for `round3` once the floor `n` of `x * 1000` is
known. -/
theorem round3_eval (x : ℚ) (n : ℤ) (hle : (n : ℚ) ≤ x * 1000)
    (hlt : x * 1000 < (n : ℚ) + 1) :
    round3 x =
      (if x * 1000 - (n : ℚ) < 1 / 2 then (n : ℚ)
       else if (1 : ℚ) / 2 < x * 1000 - (n : ℚ) then (n : ℚ) + 1
       else if n % 2 = 0 then (n : ℚ) else (n : ℚ) + 1) / 1000 := by
  rw [round3, roundHalfEven_eval (x * 1000) n hle hlt]
  split
  · rfl
  · split
    · push_cast
      rfl
    · split <;> push_cast <;> rfl

theorem get_pricing_eq_none (db : Db) (pk : Nat) (q : ℚ) (ui : Bool)
    (h : get_part db pk = none) :
    get_pricing db pk q ui = Ctx.base none (effQ q) := by
  unfold get_pricing effQ
  rw [h]

theorem get_pricing_eq_some (db : Db) (pk : Nat) (q : ℚ) (ui : Bool)
    (part : PartData) (h : get_part db pk = some part) :
    get_pricing db pk q ui =
      { part := some part, quantity := effQ q, currency := none,
        buy :=
          if part.supplier_count > 0 then
            buyFacets (effQ q) 1 (part.get_supplier_price_range (effQ q))
          else BuyFacets.empty,
        bom :=
          if part.bom_count > 0 then
            rangeFacets (effQ q) 1
              (part.get_bom_price_range (effQ q) ui false)
          else RangeFacets.empty,
        bom_purchase :=
          if part.bom_count > 0 then
            rangeFacets (effQ q) 1
              (part.get_bom_price_range (effQ q) false true)
          else RangeFacets.empty,
        internal := priceFacets (effQ q) (part.get_internal_price (effQ q)),
        price := priceFacets (effQ q) (part.get_price (effQ q)) } := by
  unfold get_pricing effQ
  rw [h]

theorem get_pricing_quantity (db : Db) (pk : Nat) (q : ℚ) (ui : Bool) :
    (get_pricing db pk q ui).quantity = effQ q := by
  cases h : get_part db pk with
  | none => rw [get_pricing_eq_none db pk q ui h]; rfl
  | some part => rw [get_pricing_eq_some db pk q ui part h]

theorem buyFacets_some (q s mn mx : ℚ) :
    buyFacets q s (some (mn, mx)) =
      { min_total_buy_price :=
          if truthy (round3 (mn / s)) then some (round3 (mn / s)) else none,
        min_unit_buy_price :=
          if truthy (round3 (mn / s)) then some (round3 (mn / s / q))
          else none,
        max_total_buy_price :=
          if truthy (round3 (mx / s)) then some (round3 (mx / s)) else none,
        max_unit_buy_price :=
          if truthy (round3 (mx / s)) then some (round3 (mx / s / q))
          else none } := rfl

theorem rangeFacets_pair (q s : ℚ) (p : ℚ × ℚ) :
    rangeFacets q s (some p) =
      { min_total := if truthy (p.1 / s) then some (round3 (p.1 / s)) else none,
        min_unit :=
          if truthy (p.1 / s) then some (round3 (p.1 / s / q)) else none,
        max_total := if truthy (p.2 / s) then some (round3 (p.2 / s)) else none,
        max_unit :=
          if truthy (p.2 / s) then some (round3 (p.2 / s / q)) else none } := by
  obtain ⟨mn, mx⟩ := p
  rfl

theorem priceFacets_some (q v : ℚ) :
    priceFacets q (some v) =
      { total := some (round3 v), unit := some (round3 (v / q)) } := rfl

theorem if_truthy {α : Type} (x : ℚ) (a b : α) :
    (if truthy x then a else b) = if x = 0 then b else a := by
  by_cases h : x = 0 <;> simp [truthy, h]

theorem effQ_pos_eq (q : ℚ) (h : ¬ q ≤ 0) : effQ q = q := by
  rw [effQ, if_neg h]

theorem facetPair_none (e : ℚ) : facetPair none none e :=
  Or.inl ⟨rfl, rfl⟩

theorem facetPair_buy_min (e s : ℚ) (r : Option (ℚ × ℚ)) :
    facetPair (buyFacets e s r).min_total_buy_price
      (buyFacets e s r).min_unit_buy_price e := by
  match r with
  | none => exact facetPair_none e
  | some (mn, mx) =>
    rw [buyFacets_some]
    by_cases h : truthy (round3 (mn / s)) <;> simp only [h, if_pos, if_neg,
      Bool.false_eq_true, if_false, if_true]
    · exact Or.inr ⟨mn / s, rfl, rfl⟩
    · exact facetPair_none e

theorem facetPair_buy_max (e s : ℚ) (r : Option (ℚ × ℚ)) :
    facetPair (buyFacets e s r).max_total_buy_price
      (buyFacets e s r).max_unit_buy_price e := by
  match r with
  | none => exact facetPair_none e
  | some (mn, mx) =>
    rw [buyFacets_some]
    by_cases h : truthy (round3 (mx / s)) <;> simp only [h, if_pos, if_neg,
      Bool.false_eq_true, if_false, if_true]
    · exact Or.inr ⟨mx / s, rfl, rfl⟩
    · exact facetPair_none e

theorem facetPair_range_min (e s : ℚ) (r : Option (ℚ × ℚ)) :
    facetPair (rangeFacets e s r).min_total (rangeFacets e s r).min_unit e := by
  match r with
  | none => exact facetPair_none e
  | some p =>
    rw [rangeFacets_pair]
    by_cases h : truthy (p.1 / s) <;> simp only [h, Bool.false_eq_true,
      if_false, if_true]
    · exact Or.inr ⟨p.1 / s, rfl, rfl⟩
    · exact facetPair_none e

theorem facetPair_range_max (e s : ℚ) (r : Option (ℚ × ℚ)) :
    facetPair (rangeFacets e s r).max_total (rangeFacets e s r).max_unit e := by
  match r with
  | none => exact facetPair_none e
  | some p =>
    rw [rangeFacets_pair]
    by_cases h : truthy (p.2 / s) <;> simp only [h, Bool.false_eq_true,
      if_false, if_true]
    · exact Or.inr ⟨p.2 / s, rfl, rfl⟩
    · exact facetPair_none e

theorem facetPair_price (e : ℚ) (r : Option ℚ) :
    facetPair (priceFacets e r).total (priceFacets e r).unit e := by
  match r with
  | none => exact facetPair_none e
  | some v => exact Or.inr ⟨v, rfl, rfl⟩

theorem fixFold_const (sp : SupplierPart) (lines : List POLine) (p : ℚ)
    (h : ∀ l ∈ lines, ¬(l.part = some sp ∧ l.purchase_price = some p)) :
    fixItemPrice sp lines p = p := by
  induction lines with
  | nil => rfl
  | cons l ls ih =>
    rw [fixItemPrice, List.foldl_cons, if_neg (h l (List.mem_cons_self l ls))]
    exact ih fun x hx => h x (List.mem_cons_of_mem l hx)

theorem bomPriceRange_snd_eq_fst (lines : List BomLine) (q : ℚ)
    (hres : ∀ l ∈ lines, ∃ p, l.child_price_range = some (p, p)) :
    (bomPriceRange lines q).2 = (bomPriceRange lines q).1 := by
  unfold bomPriceRange
  refine congrArg List.sum (List.map_congr_left fun l hl => ?_)
  obtain ⟨p, hp⟩ := hres l hl
  rw [hp]


/-- C2: for every quantity q ≤ 0 passed to `PartPricing.get_pricing`,
the effective quantity used for all total and per-unit price
computations in the returned context is 1 (the result is the same
context as for quantity 1), and the `quantity` entry of the returned
context is 1. -/
theorem C2_quantity_clamped (db : Db) (pk : Nat) (ui : Bool) (q : ℚ)
    (h : q ≤ 0) :
    get_pricing db pk q ui = get_pricing db pk 1 ui ∧
    (get_pricing db pk q ui).quantity = 1 := by
  have he : effQ q = 1 := by rw [effQ, if_pos h]
  have he1 : effQ 1 = 1 := by rw [effQ]; norm_num
  constructor
  · cases hp : get_part db pk with
    | none =>
      rw [get_pricing_eq_none db pk q ui hp, get_pricing_eq_none db pk 1 ui hp,
        he, he1]
    | some part =>
      rw [get_pricing_eq_some db pk q ui part hp,
        get_pricing_eq_some db pk 1 ui part hp, he, he1]
  · rw [get_pricing_quantity, he]

/-- Witness for C2 at quantity -2. -/
theorem C2_quantity_clamped_witness :
    get_pricing [] 0 (-2) false = get_pricing [] 0 1 false ∧
    (get_pricing [] 0 (-2) false).quantity = 1 :=
  C2_quantity_clamped [] 0 false (-2) (by norm_num)

/-- C4: for every part id for which no part exists, `get_pricing` does
not raise and returns a minimal context containing only the `part`
(None), `quantity`, and `currency` entries, with no price facets. -/
theorem C4_missing_part (db : Db) (pk : Nat) (q : ℚ) (ui : Bool)
    (h : get_part db pk = none) :
    (get_pricing db pk q ui).part = none ∧
    (get_pricing db pk q ui).quantity = effQ q ∧
    (get_pricing db pk q ui).currency = none ∧
    (get_pricing db pk q ui).noFacets := by
  rw [get_pricing_eq_none db pk q ui h]
  exact ⟨rfl, rfl, rfl, rfl, rfl, rfl, rfl, rfl⟩

/-- Witness for C4 on an empty part database. -/
theorem C4_missing_part_witness :
    (get_pricing [] 0 2 false).part = none ∧
    (get_pricing [] 0 2 false).quantity = effQ 2 ∧
    (get_pricing [] 0 2 false).currency = none ∧
    (get_pricing [] 0 2 false).noFacets :=
  C4_missing_part [] 0 2 false rfl

/-- C5: for every part with no linked suppliers, no BOM lines, and no
internal or list price set, the returned context contains no price
facet keys, only `part`, `quantity` and `currency`; absent sources are
omitted rather than reported as zero. -/
theorem C5_no_price_sources (db : Db) (pk : Nat) (q : ℚ) (ui : Bool)
    (part : PartData) (h : get_part db pk = some part)
    (hs : part.supplier_count = 0) (hb : part.bom_count = 0)
    (hi : part.get_internal_price (effQ q) = none)
    (hp : part.get_price (effQ q) = none) :
    (get_pricing db pk q ui).part = some part ∧
    (get_pricing db pk q ui).quantity = effQ q ∧
    (get_pricing db pk q ui).currency = none ∧
    (get_pricing db pk q ui).noFacets := by
  rw [get_pricing_eq_some db pk q ui part h]
  refine ⟨rfl, rfl, rfl, ?_, ?_, ?_, ?_, ?_⟩ <;>
    simp [hs, hb, hi, hp, priceFacets]

/-- Witness for C5 on a part with no pricing sources at quantity 5. -/
theorem C5_no_price_sources_witness :
    (get_pricing dbEmptyPart 3 5 false).part = some partEmpty ∧
    (get_pricing dbEmptyPart 3 5 false).quantity = effQ 5 ∧
    (get_pricing dbEmptyPart 3 5 false).currency = none ∧
    (get_pricing dbEmptyPart 3 5 false).noFacets :=
  C5_no_price_sources dbEmptyPart 3 5 false partEmpty rfl rfl rfl rfl rfl

/-- C9: the `fix_purchase_price` migration modifies no stock item that
lacks a linked purchase order, lacks a linked supplier part, has a null
purchase price, or whose purchase price does not equal the purchase
price of any line of its purchase order whose part matches the item's
supplier part. -/
theorem C9_untouched_items_unchanged (item : StockItem)
    (h : item.purchase_order = none ∨ item.supplier_part = none ∨
      item.purchase_price = none ∨
      (∀ lines sp p, item.purchase_order = some lines →
        item.supplier_part = some sp → item.purchase_price = some p →
        ∀ l ∈ lines, ¬(l.part = some sp ∧ l.purchase_price = some p))) :
    fix_purchase_price item = item := by
  obtain ⟨po, sp, pp⟩ := item
  rcases h with h | h | h | h
  · simp only at h
    subst h
    rfl
  · simp only at h
    subst h
    cases po <;> rfl
  · simp only at h
    subst h
    cases po <;> cases sp <;> rfl
  · cases po with
    | none => rfl
    | some lines =>
      cases sp with
      | none => rfl
      | some s =>
        cases pp with
        | none => rfl
        | some p =>
          have hfix : fixItemPrice s lines p = p :=
            fixFold_const s lines p (h lines s p rfl rfl rfl)
          by_cases hps : s.pack_size = 1 <;>
            simp [fix_purchase_price, hps, hfix]

/-- Witness for C9 on an item with no linked purchase order. -/
theorem C9_untouched_items_unchanged_witness :
    fix_purchase_price itemNoPO = itemNoPO :=
  C9_untouched_items_unchanged itemNoPO (Or.inl rfl)

/-- C3, counterexample: the string "abc" is unparsable, and
`get_quantity` propagates the `decimal.InvalidOperation` exception
instead of defaulting to 1. -/
theorem C3_counterexample_unparsable :
    pyDecimalParse sAbc = none ∧
    get_quantity (some sAbc) = Except.error () ∧
    get_quantity (some sAbc) ≠ Except.ok 1 := by
  refine ⟨rfl, rfl, fun h => ?_⟩
  exact Except.noConfusion h

/-- C3, amended: a missing `quantity` parameter defaults to 1, and a
parsable one is used as parsed; but an unparsable one raises
`decimal.InvalidOperation` (the request fails) rather than defaulting
to 1. -/
theorem C3_amended_default_and_raise :
    get_quantity none = Except.ok 1 ∧
    (∀ s q, pyDecimalParse s = some q →
      get_quantity (some s) = Except.ok q) ∧
    (∀ s, pyDecimalParse s = none →
      get_quantity (some s) = Except.error ()) := by
  refine ⟨rfl, ?_, ?_⟩
  · intro s q h
    simp only [get_quantity, h]
  · intro s h
    simp only [get_quantity, h]

/-- Witness for the amended C3: "1.5" parses to 3/2 and is used;
"abc" raises. -/
theorem C3_amended_default_and_raise_witness :
    get_quantity (some sNum) = Except.ok (3 / 2) ∧
    get_quantity (some sAbc) = Except.error () := by
  constructor
  · apply C3_amended_default_and_raise.2.1 sNum (3 / 2)
    have h : pyDecimalScan sNum = some (false, 1, 5, 1, 0) := by decide
    rw [pyDecimalParse, h, Option.map_some']
    norm_num [pyDecimalVal]
  · exact C3_amended_default_and_raise.2.2 sAbc rfl

/-- C8: `get_pricing` is deterministic and side-effect-free: it leaves
the part database and the settings store unchanged, a second call over
the state left by the first returns an identical context, and the
state-threaded run computes exactly `get_pricing`. -/
theorem C8_deterministic_no_side_effects (db : Db) (st : Bool) (pk : Nat)
    (q : ℚ) :
    (get_pricing_run db st pk q).2.1 = db ∧
    (get_pricing_run db st pk q).2.2 = st ∧
    (get_pricing_run (get_pricing_run db st pk q).2.1
        (get_pricing_run db st pk q).2.2 pk q).1 =
      (get_pricing_run db st pk q).1 ∧
    (get_pricing_run db st pk q).1 = get_pricing db pk q st := by
  have key : get_pricing_run db st pk q = (get_pricing db pk q st, db, st) := by
    unfold get_pricing_run get_pricing dbGetPart settingGet get_part
    cases db.lookup pk <;> rfl
  have h1 : (get_pricing_run db st pk q).2.1 = db := by rw [key]
  have h2 : (get_pricing_run db st pk q).2.2 = st := by rw [key]
  refine ⟨h1, h2, ?_, ?_⟩
  · rw [h1, h2]
  · rw [key]


/-- C1, counterexample: for the part with supplier buy price 1.0024 at
quantity 4, the reported total is 1.002 and the reported unit price is
0.251, but the total divided by the effective quantity rounds to 0.250:
the unit price is computed from the total BEFORE rounding, so it does
not always equal (reported total) ÷ quantity rounded to 3 decimals. -/
theorem C1_counterexample_rounded_total :
    (get_pricing dbBuyCe 1 4 false).min_total_buy_price =
      some (1002 / 1000) ∧
    (get_pricing dbBuyCe 1 4 false).min_unit_buy_price = some (251 / 1000) ∧
    round3 ((1002 : ℚ) / 1000 / effQ 4) = 250 / 1000 ∧
    (251 : ℚ) / 1000 ≠ 250 / 1000 := by
  have h : get_part dbBuyCe 1 = some partBuyCe := rfl
  have e4 : effQ 4 = 4 := by rw [effQ]; norm_num
  have hr1 : round3 ((10024 : ℚ) / 10000 / 1) = 1002 / 1000 := by
    rw [div_one, round3_eval _ 1002 (by norm_num) (by norm_num)]
    norm_num
  have hr2 : round3 ((10024 : ℚ) / 10000 / 1 / 4) = 251 / 1000 := by
    rw [div_one, round3_eval _ 250 (by norm_num) (by norm_num)]
    norm_num
  have hr3 : round3 ((1002 : ℚ) / 1000 / 4) = 250 / 1000 := by
    rw [round3_eval _ 250 (by norm_num) (by norm_num)]
    norm_num
  rw [get_pricing_eq_some dbBuyCe 1 4 false partBuyCe h]
  refine ⟨?_, ?_, by rw [e4]; exact hr3, by norm_num⟩ <;>
    · simp only [Ctx.min_total_buy_price, Ctx.min_unit_buy_price, partBuyCe,
        e4, gt_iff_lt, Nat.zero_lt_one, if_true, buyFacets_some, if_truthy,
        hr1, hr2]
      norm_num


/-- C1, amended: for every pricing facet present in the context, the
per-unit value equals the facet's total value BEFORE rounding, divided
by the effective quantity and rounded to 3 decimal places (the reported
total is that same unrounded value rounded to 3 decimals). -/
theorem C1_amended_unit_from_unrounded_total (db : Db) (pk : Nat) (q : ℚ)
    (ui : Bool) :
    facetPair (get_pricing db pk q ui).min_total_buy_price
      (get_pricing db pk q ui).min_unit_buy_price (effQ q) ∧
    facetPair (get_pricing db pk q ui).max_total_buy_price
      (get_pricing db pk q ui).max_unit_buy_price (effQ q) ∧
    facetPair (get_pricing db pk q ui).min_total_bom_price
      (get_pricing db pk q ui).min_unit_bom_price (effQ q) ∧
    facetPair (get_pricing db pk q ui).max_total_bom_price
      (get_pricing db pk q ui).max_unit_bom_price (effQ q) ∧
    facetPair (get_pricing db pk q ui).min_total_bom_purchase_price
      (get_pricing db pk q ui).min_unit_bom_purchase_price (effQ q) ∧
    facetPair (get_pricing db pk q ui).max_total_bom_purchase_price
      (get_pricing db pk q ui).max_unit_bom_purchase_price (effQ q) ∧
    facetPair (get_pricing db pk q ui).total_internal_part_price
      (get_pricing db pk q ui).unit_internal_part_price (effQ q) ∧
    facetPair (get_pricing db pk q ui).total_part_price
      (get_pricing db pk q ui).unit_part_price (effQ q) := by
  cases hp : get_part db pk with
  | none =>
    rw [get_pricing_eq_none db pk q ui hp]
    exact ⟨facetPair_none _, facetPair_none _, facetPair_none _,
      facetPair_none _, facetPair_none _, facetPair_none _,
      facetPair_none _, facetPair_none _⟩
  | some part =>
    rw [get_pricing_eq_some db pk q ui part hp]
    refine ⟨?_, ?_, ?_, ?_, ?_, ?_, ?_, ?_⟩
    · by_cases hs : part.supplier_count > 0
      · simp only [Ctx.min_total_buy_price, Ctx.min_unit_buy_price, if_pos hs]
        exact facetPair_buy_min _ _ _
      · simp only [Ctx.min_total_buy_price, Ctx.min_unit_buy_price, if_neg hs]
        exact facetPair_none _
    · by_cases hs : part.supplier_count > 0
      · simp only [Ctx.max_total_buy_price, Ctx.max_unit_buy_price, if_pos hs]
        exact facetPair_buy_max _ _ _
      · simp only [Ctx.max_total_buy_price, Ctx.max_unit_buy_price, if_neg hs]
        exact facetPair_none _
    · by_cases hb : part.bom_count > 0
      · simp only [Ctx.min_total_bom_price, Ctx.min_unit_bom_price, if_pos hb]
        exact facetPair_range_min _ _ _
      · simp only [Ctx.min_total_bom_price, Ctx.min_unit_bom_price, if_neg hb]
        exact facetPair_none _
    · by_cases hb : part.bom_count > 0
      · simp only [Ctx.max_total_bom_price, Ctx.max_unit_bom_price, if_pos hb]
        exact facetPair_range_max _ _ _
      · simp only [Ctx.max_total_bom_price, Ctx.max_unit_bom_price, if_neg hb]
        exact facetPair_none _
    · by_cases hb : part.bom_count > 0
      · simp only [Ctx.min_total_bom_purchase_price,
          Ctx.min_unit_bom_purchase_price, if_pos hb]
        exact facetPair_range_min _ _ _
      · simp only [Ctx.min_total_bom_purchase_price,
          Ctx.min_unit_bom_purchase_price, if_neg hb]
        exact facetPair_none _
    · by_cases hb : part.bom_count > 0
      · simp only [Ctx.max_total_bom_purchase_price,
          Ctx.max_unit_bom_purchase_price, if_pos hb]
        exact facetPair_range_max _ _ _
      · simp only [Ctx.max_total_bom_purchase_price,
          Ctx.max_unit_bom_purchase_price, if_neg hb]
        exact facetPair_none _
    · exact facetPair_price _ _
    · exact facetPair_price _ _


/-- C10, counterexample: for the part whose BOM minimum total is 0.0004
(nonzero but rounding to 0.000 at 3 decimals), the BOM min facet is NOT
omitted: it is reported with value 0.  The zero-omission rule for the
BOM facets tests the value before rounding, not the rounded value. -/
theorem C10_counterexample_bom_rounds_to_zero :
    round3 ((4 : ℚ) / 10000 / 1) = 0 ∧
    (get_pricing dbBomCe 2 1 false).min_total_bom_price = some 0 ∧
    (get_pricing dbBomCe 2 1 false).min_total_bom_price ≠ none := by
  have h : get_part dbBomCe 2 = some partBomCe := rfl
  have hr : round3 ((4 : ℚ) / 10000 / 1) = 0 := by
    rw [div_one, round3_eval _ 0 (by norm_num) (by norm_num)]
    norm_num
  have hmain : (get_pricing dbBomCe 2 1 false).min_total_bom_price =
      some 0 := by
    rw [get_pricing_eq_some dbBomCe 2 1 false partBomCe h]
    simp only [Ctx.min_total_bom_price, partBomCe, gt_iff_lt,
      Nat.zero_lt_one, if_true, Bool.false_eq_true, if_false,
      rangeFacets_pair, if_truthy, hr]
    norm_num
  refine ⟨hr, hmain, ?_⟩
  rw [hmain]
  exact Option.noConfusion

/-- C10, amended: the buy facets are omitted exactly when the ROUNDED
total is 0; the BOM and BOM purchase facets are omitted exactly when
the UNROUNDED total is 0 (so a nonzero total that rounds to 0 is still
reported, as 0); the internal-price and part-price facets are reported
whenever the lookup returns a value, even when that value is 0. -/
theorem C10_amended_zero_omission (db : Db) (pk : Nat) (q : ℚ) (ui : Bool)
    (part : PartData) (h : get_part db pk = some part) :
    (∀ mn mx, part.supplier_count > 0 →
      part.get_supplier_price_range (effQ q) = some (mn, mx) →
      ((get_pricing db pk q ui).min_total_buy_price =
        if round3 (mn / 1) = 0 then none else some (round3 (mn / 1))) ∧
      ((get_pricing db pk q ui).min_unit_buy_price =
        if round3 (mn / 1) = 0 then none
        else some (round3 (mn / 1 / effQ q))) ∧
      ((get_pricing db pk q ui).max_total_buy_price =
        if round3 (mx / 1) = 0 then none else some (round3 (mx / 1))) ∧
      ((get_pricing db pk q ui).max_unit_buy_price =
        if round3 (mx / 1) = 0 then none
        else some (round3 (mx / 1 / effQ q)))) ∧
    (∀ mn mx, part.bom_count > 0 →
      part.get_bom_price_range (effQ q) ui false = some (mn, mx) →
      ((get_pricing db pk q ui).min_total_bom_price =
        if mn / 1 = 0 then none else some (round3 (mn / 1))) ∧
      ((get_pricing db pk q ui).min_unit_bom_price =
        if mn / 1 = 0 then none else some (round3 (mn / 1 / effQ q))) ∧
      ((get_pricing db pk q ui).max_total_bom_price =
        if mx / 1 = 0 then none else some (round3 (mx / 1))) ∧
      ((get_pricing db pk q ui).max_unit_bom_price =
        if mx / 1 = 0 then none else some (round3 (mx / 1 / effQ q)))) ∧
    (∀ mn mx, part.bom_count > 0 →
      part.get_bom_price_range (effQ q) false true = some (mn, mx) →
      ((get_pricing db pk q ui).min_total_bom_purchase_price =
        if mn / 1 = 0 then none else some (round3 (mn / 1))) ∧
      ((get_pricing db pk q ui).min_unit_bom_purchase_price =
        if mn / 1 = 0 then none else some (round3 (mn / 1 / effQ q))) ∧
      ((get_pricing db pk q ui).max_total_bom_purchase_price =
        if mx / 1 = 0 then none else some (round3 (mx / 1))) ∧
      ((get_pricing db pk q ui).max_unit_bom_purchase_price =
        if mx / 1 = 0 then none else some (round3 (mx / 1 / effQ q)))) ∧
    (∀ v, part.get_internal_price (effQ q) = some v →
      (get_pricing db pk q ui).total_internal_part_price =
        some (round3 v) ∧
      (get_pricing db pk q ui).unit_internal_part_price =
        some (round3 (v / effQ q))) ∧
    (∀ v, part.get_price (effQ q) = some v →
      (get_pricing db pk q ui).total_part_price = some (round3 v) ∧
      (get_pricing db pk q ui).unit_part_price =
        some (round3 (v / effQ q))) := by
  rw [get_pricing_eq_some db pk q ui part h]
  refine ⟨?_, ?_, ?_, ?_, ?_⟩
  · intro mn mx hs hr
    simp only [Ctx.min_total_buy_price, Ctx.min_unit_buy_price,
      Ctx.max_total_buy_price, Ctx.max_unit_buy_price, if_pos hs, hr,
      buyFacets_some, if_truthy]
    refine ⟨?_, ?_, ?_, ?_⟩ <;> trivial
  · intro mn mx hb hr
    simp only [Ctx.min_total_bom_price, Ctx.min_unit_bom_price,
      Ctx.max_total_bom_price, Ctx.max_unit_bom_price, if_pos hb, hr,
      rangeFacets_pair, if_truthy]
    refine ⟨?_, ?_, ?_, ?_⟩ <;> trivial
  · intro mn mx hb hr
    simp only [Ctx.min_total_bom_purchase_price,
      Ctx.min_unit_bom_purchase_price, Ctx.max_total_bom_purchase_price,
      Ctx.max_unit_bom_purchase_price, if_pos hb, hr, rangeFacets_pair,
      if_truthy]
    refine ⟨?_, ?_, ?_, ?_⟩ <;> trivial
  · intro v hv
    simp only [Ctx.total_internal_part_price, Ctx.unit_internal_part_price,
      hv, priceFacets_some]
    refine ⟨?_, ?_⟩ <;> trivial
  · intro v hv
    simp only [Ctx.total_part_price, Ctx.unit_part_price, hv,
      priceFacets_some]
    refine ⟨?_, ?_⟩ <;> trivial

/-- Witness for the amended C10: the 0.0004 BOM total is reported (its
truthiness test is on the unrounded value). -/
theorem C10_amended_zero_omission_witness :
    (get_pricing dbBomCe 2 1 false).min_total_bom_price =
      (if (4 : ℚ) / 10000 / 1 = 0 then none
       else some (round3 ((4 : ℚ) / 10000 / 1))) :=
  (((C10_amended_zero_omission dbBomCe 2 1 false partBomCe rfl).2.1
    (4 / 10000) (4 / 10000) (by decide) rfl).1)


theorem fixItemPrice_append (sp : SupplierPart) (as bs : List POLine)
    (p : ℚ) :
    fixItemPrice sp (as ++ bs) p = fixItemPrice sp bs (fixItemPrice sp as p) := by
  unfold fixItemPrice
  exact List.foldl_append _ _ _ _

theorem fixItemPrice_cons (sp : SupplierPart) (l : POLine) (ls : List POLine)
    (p : ℚ) :
    fixItemPrice sp (l :: ls) p =
      fixItemPrice sp ls
        (if l.part = some sp ∧ l.purchase_price = some p then
          p / sp.pack_size
         else p) := rfl

/-- C6: for a part whose BOM lines each have a resolvable unit price and
whose `get_bom_price_range` is the spec-modelled aggregator on those
lines, at any quantity q ≥ 1 with nonzero total S = Σ(child unit price ×
line quantity × q), the reported BOM totals are S rounded to 3 decimals
and the unit prices are S/q rounded to 3 decimals. -/
theorem C6_bom_total_is_sum (db : Db) (pk : Nat) (q : ℚ) (ui : Bool)
    (part : PartData) (lines : List BomLine) (S : ℚ)
    (h : get_part db pk = some part)
    (hq : 1 ≤ q)
    (hb : part.bom_count = lines.length) (hne : lines ≠ [])
    (hbpr : part.get_bom_price_range q ui false =
      some (bomPriceRange lines q))
    (hres : ∀ l ∈ lines, ∃ p, l.child_price_range = some (p, p))
    (hS : S = (lines.map fun l =>
      (match l.child_price_range with
       | some pr => pr.1
       | none => 0) * l.line_quantity * q).sum)
    (hnz : S ≠ 0) :
    (get_pricing db pk q ui).min_total_bom_price = some (round3 S) ∧
    (get_pricing db pk q ui).min_unit_bom_price = some (round3 (S / q)) ∧
    (get_pricing db pk q ui).max_total_bom_price = some (round3 S) ∧
    (get_pricing db pk q ui).max_unit_bom_price = some (round3 (S / q)) := by
  have hq0 : ¬ q ≤ 0 := by intro hc; linarith
  have he : effQ q = q := effQ_pos_eq q hq0
  have hbc : part.bom_count > 0 := by
    rw [hb]
    exact List.length_pos.mpr hne
  have hfst : (bomPriceRange lines q).1 = S := by rw [hS]; rfl
  have hsnd : (bomPriceRange lines q).2 = S := by
    rw [bomPriceRange_snd_eq_fst lines q hres, hfst]
  rw [get_pricing_eq_some db pk q ui part h]
  simp only [Ctx.min_total_bom_price, Ctx.min_unit_bom_price,
    Ctx.max_total_bom_price, Ctx.max_unit_bom_price, if_pos hbc, he, hbpr,
    rangeFacets_pair, hfst, hsnd, div_one, if_truthy, if_neg hnz]
  refine ⟨?_, ?_, ?_, ?_⟩ <;> trivial

/-- Witness for C6: the spec's worked example (children priced 2.00 at
line qty 3 and 5.00 at line qty 1, at build quantity 2) reports BOM
total 22 and unit price 11. -/
theorem C6_bom_total_is_sum_witness :
    (get_pricing dbC6 1 2 false).min_total_bom_price = some 22 ∧
    (get_pricing dbC6 1 2 false).min_unit_bom_price = some 11 ∧
    (get_pricing dbC6 1 2 false).max_total_bom_price = some 22 ∧
    (get_pricing dbC6 1 2 false).max_unit_bom_price = some 11 := by
  have hres : ∀ l ∈ linesC6, ∃ p, l.child_price_range = some (p, p) := by
    intro l hl
    rcases List.mem_cons.mp hl with rfl | hl2
    · exact ⟨2, rfl⟩
    · rcases List.mem_cons.mp hl2 with rfl | hl3
      · exact ⟨5, rfl⟩
      · exact absurd hl3 (List.not_mem_nil l)
  have hS : (22 : ℚ) = (linesC6.map fun l =>
      (match l.child_price_range with
       | some pr => pr.1
       | none => 0) * l.line_quantity * (2 : ℚ)).sum := by
    simp [linesC6]
    norm_num
  have main := C6_bom_total_is_sum dbC6 1 2 false partC6 linesC6 22 rfl
    (by norm_num) rfl (by simp [linesC6]) rfl hres hS (by norm_num)
  have hr22 : round3 (22 : ℚ) = 22 := by
    rw [round3_eval _ 22000 (by norm_num) (by norm_num)]
    norm_num
  have hr11 : round3 ((22 : ℚ) / 2) = 11 := by
    rw [round3_eval _ 11000 (by norm_num) (by norm_num)]
    norm_num
  obtain ⟨m1, m2, m3, m4⟩ := main
  exact ⟨by rw [m1, hr22], by rw [m2, hr11], by rw [m3, hr22],
    by rw [m4, hr11]⟩


/-- C7, counterexample: the stock item whose purchase order has TWO
lines for its supplier part (priced 10.00 and 2.00, pack size 5, stored
price 10.00) ends at 0.4, not at 10.00 ÷ 5 = 2.00: the loop divides
again when the already-divided price matches a later line. -/
theorem C7_counterexample_double_division :
    itemC7.purchase_price = some 10 ∧
    itemC7.supplier_part = some spC7 ∧
    itemC7.purchase_order = some
      [{ part := some spC7, purchase_price := some 10 },
       { part := some spC7, purchase_price := some 2 }] ∧
    spC7.pack_size ≠ 1 ∧
    (fix_purchase_price itemC7).purchase_price = some (2 / 5) ∧
    some ((2 : ℚ) / 5) ≠ some ((10 : ℚ) / 5) := by
  refine ⟨rfl, rfl, rfl, by norm_num [spC7], ?_, by norm_num⟩
  have h1 : fixItemPrice spC7 [{ part := some spC7, purchase_price := some 10 },
      { part := some spC7, purchase_price := some 2 }] 10 = 2 / 5 := by
    rw [fixItemPrice_cons, if_pos ⟨rfl, rfl⟩]
    have h10 : (10 : ℚ) / spC7.pack_size = 2 := by norm_num [spC7]
    rw [h10, fixItemPrice_cons, if_pos ⟨rfl, rfl⟩]
    have h2 : (2 : ℚ) / spC7.pack_size = 2 / 5 := by norm_num [spC7]
    rw [h2]
    rfl
  show (fix_purchase_price itemC7).purchase_price = some (2 / 5)
  rw [fix_purchase_price]
  simp only [itemC7]
  rw [if_neg (by norm_num [spC7] : ¬ spC7.pack_size = (1 : ℚ))]
  simp only [h1]


/-- C7, amended: the migration divides the running price once per
matching line, scanning the purchase order's lines in order; in
particular, for a stock item with a linked purchase order and supplier
part, a non-null stored price p equal to the price of THE SINGLE line
whose part equals the item's supplier part, and pack size different
from 1, the price is replaced with p ÷ pack size. -/
theorem C7_amended_single_matching_line (item : StockItem)
    (sp : SupplierPart) (lines pre post : List POLine) (l : POLine) (p : ℚ)
    (hpo : item.purchase_order = some lines)
    (hsp : item.supplier_part = some sp)
    (hpp : item.purchase_price = some p)
    (hpack : sp.pack_size ≠ 1)
    (hsplit : lines = pre ++ l :: post)
    (hpre : ∀ x ∈ pre, x.part ≠ some sp)
    (hl : l.part = some sp) (hlp : l.purchase_price = some p)
    (hpost : ∀ x ∈ post, x.part ≠ some sp) :
    (fix_purchase_price item).purchase_price = some (p / sp.pack_size) := by
  have hfix : fixItemPrice sp lines p = p / sp.pack_size := by
    rw [hsplit, fixItemPrice_append,
      fixFold_const sp pre p (fun x hx hc => hpre x hx hc.1),
      fixItemPrice_cons, if_pos ⟨hl, hlp⟩,
      fixFold_const sp post (p / sp.pack_size)
        (fun x hx hc => hpost x hx hc.1)]
  rw [fix_purchase_price, hpo, hsp, hpp]
  simp only [if_neg hpack, hfix]

/-- Witness for the amended C7: the single-matching-line item (price
10.00, pack size 5) resolves to 10.00 ÷ 5. -/
theorem C7_amended_single_matching_line_witness :
    (fix_purchase_price itemC7w).purchase_price = some ((10 : ℚ) / 5) :=
  C7_amended_single_matching_line itemC7w spC7
    [{ part := some spC7, purchase_price := some 10 }] [] []
    { part := some spC7, purchase_price := some 10 } 10
    rfl rfl rfl (by norm_num [spC7]) rfl
    (by intro x hx; exact absurd hx (List.not_mem_nil x))
    rfl rfl
    (by intro x hx; exact absurd hx (List.not_mem_nil x))


end InvenTree
